import Mathlib

/-!
KivRims backend (`server.js`): request handlers and phone-number normaliser

A shallow embedding of `src/server.js`.

* JavaScript strings are sequences of UTF-16 code units (`JSString`); `trim`,
  `startsWith`, `slice` and `length` all work on code units, as in the language.
* Values parsed from JSON are `JSValue`s; a handler reads the request body by
  property lookup and tests the values for truthiness.
* The outside world (the gateway reached through `axios`, the clock, Base64,
  the document store behind Mongoose, Express path matching) is an explicit
  `Env` of functions; a handler returns its outcome, the trace of its effects
  and the store it leaves behind.
* A request passes `cors()` and `express.json()` (lines 13-14) before the
  routes; `handleRequest` follows that order.
-/

set_option autoImplicit false

namespace KivRims

/-! ## Strings -/

/-- A JavaScript string: its UTF-16 code units, in order. -/
abbrev JSString := List Nat

/-- UTF-16 encoding of one Unicode scalar value. -/
def utf16 (c : Char) : List Nat :=
  if c.toNat < 65536 then [c.toNat]
  else [55296 + (c.toNat - 65536) / 1024, 56320 + (c.toNat - 65536) % 1024]

/-- The JavaScript string written by a literal. -/
def js (s : String) : JSString :=
  (s.toList.map utf16).flatten

/-- Code units removed by `String.prototype.trim`: ECMAScript WhiteSpace
(TAB, VT, FF, SP, NBSP, ZWNBSP and category Zs) and LineTerminator
(LF, CR, LS, PS). -/
def isWhiteSpace (u : Nat) : Bool :=
  u == 9 || u == 10 || u == 11 || u == 12 || u == 13 || u == 32 || u == 160 ||
  u == 5760 || (8192 ≤ u && u ≤ 8202) || u == 8232 || u == 8233 || u == 8239 ||
  u == 8287 || u == 12288 || u == 65279

/-- The method `String.prototype.trimStart`. -/
def trimStart (s : JSString) : JSString :=
  s.dropWhile isWhiteSpace

/-- The method `String.prototype.trimEnd`. -/
def trimEnd (s : JSString) : JSString :=
  s.rdropWhile isWhiteSpace

/-- The method `String.prototype.trim`: whitespace is removed from both ends. -/
def trim (s : JSString) : JSString :=
  trimEnd (trimStart s)

/-- The method `String.prototype.startsWith` (search position 0). -/
def startsWith (s p : JSString) : Bool :=
  p.isPrefixOf s

/-- The method `String.prototype.slice` with a non-negative start and no end. -/
def slice (s : JSString) (start : Nat) : JSString :=
  s.drop start

/-- The function `formatPhoneNumber` of `server.js` (lines 62-76), on a string
argument. -/
def formatPhoneNumber (phone : JSString) : JSString :=
  let formatted := trim phone
  let formatted := if startsWith formatted (js "+") then slice formatted 1 else formatted
  let formatted :=
    if startsWith formatted (js "07") || startsWith formatted (js "01") then
      js "254" ++ slice formatted 1
    else formatted
  formatted

/-- The second rewrite of `formatPhoneNumber` (lines 71-73) on its own. -/
def replaceLeadingZero (formatted : JSString) : JSString :=
  if startsWith formatted (js "07") || startsWith formatted (js "01") then
    js "254" ++ slice formatted 1
  else formatted

/-- The two rewrites of `formatPhoneNumber` (lines 66-73) after the `trim`. -/
def formatTrimmed (formatted : JSString) : JSString :=
  replaceLeadingZero (if startsWith formatted (js "+") then slice formatted 1 else formatted)

/-- A string that begins with `+` directly followed by a second `+` or by
whitespace. -/
def plusThenGap (s : JSString) : Bool :=
  match s with
  | a :: c :: _ => a == 43 && (c == 43 || isWhiteSpace c)
  | _ => false

/-! ## Values -/

/-- A JavaScript number: a finite double `mantissa * 2 ^ exponent` (both
zeros have mantissa 0), an infinity, or NaN. -/
inductive JSNumber where
  | finite (mantissa exponent : Int)
  | infinity (negative : Bool)
  | nan

/-- A JavaScript value as `JSON.parse` builds it, together with `undefined`.
An object is the list of its own properties; `lookupProp` reads the first
entry of a key. -/
inductive JSValue where
  | undefined
  | null
  | bool (b : Bool)
  | number (n : JSNumber)
  | string (s : JSString)
  | array (items : List JSValue)
  | object (props : List (JSString × JSValue))

/-- The abstract operation ToBoolean: what `!v` and `a || b` test. -/
def JSValue.truthy : JSValue → Bool
  | .undefined => false
  | .null => false
  | .bool b => b
  | .number (.finite m _) => m != 0
  | .number (.infinity _) => true
  | .number .nan => false
  | .string s => !s.isEmpty
  | .array _ => true
  | .object _ => true

/-- The own property `k` of an object given by its property list; `undefined`
when there is none. -/
def lookupProp (props : List (JSString × JSValue)) (k : JSString) : JSValue :=
  match props.find? (fun p => p.1 == k) with
  | some p => p.2
  | none => .undefined

/-- Whether the property list has an own property `k`. -/
def hasProp (props : List (JSString × JSValue)) (k : JSString) : Bool :=
  props.any (fun p => p.1 == k)

/-- The parsed request body `req.body` left by `express.json()`: a JSON object
(the empty object when the request carried none). -/
abbrev Body := List (JSString × JSValue)

/-- A thrown error, by the two things the handlers read from it:
`error.message` and `error.response?.data` (`undefined` when absent). -/
structure JSError where
  message : JSString
  responseData : JSValue

/-- The two `TypeError`s the engine can raise in this program. -/
inductive TypeErrorKind where
  | notAFunction (callee : JSString)
  | propertyOfNullish (base : JSValue) (key : JSString)

/-- An argument handed to `console.log` / `console.error` after the marker. -/
inductive LogArg where
  | value (v : JSValue)
  | error (e : JSError)

/-- The `process.env` values read at lines 27-33; `none` is an unset variable. -/
structure Config where
  MPESA_CONSUMER_KEY : Option JSString
  MPESA_CONSUMER_SECRET : Option JSString
  MPESA_PASSKEY : Option JSString
  MPESA_SHORTCODE : Option JSString
  MPESA_CALLBACK_URL : Option JSString

/-- A document of the `ContactMessage` model (schema at lines 132-138) with its
generated identifier. -/
structure ContactDoc where
  id : JSValue
  name : JSValue
  email : JSValue
  subject : JSValue
  message : JSValue
  createdAt : JSValue

/-- The `ContactMessage` collection. -/
abbrev Store := List ContactDoc

/-- An effect of a handler on the outside world, in program order. -/
inductive Effect where
  | httpGet (url : JSString) (authorization : JSString)
  | httpPost (url : JSString) (payload : JSValue) (bearer : JSValue)
  | consoleError (marker : JSString) (detail : LogArg)
  | consoleLog (marker : JSString) (detail : LogArg)

/-- Whether an effect is an outbound HTTP call. -/
def Effect.isOutbound : Effect → Bool
  | .httpGet _ _ => true
  | .httpPost _ _ _ => true
  | .consoleError _ _ => false
  | .consoleLog _ _ => false

/-- Everything outside `server.js` that a request handler depends on. -/
structure Env where
  /-- The environment variables. -/
  config : Config
  /-- The call `Buffer.from(s).toString('base64')`. -/
  base64 : JSString → JSString
  /-- The call `moment().format('YYYYMMDDHHmmss')` at the time of the request. -/
  timestamp : JSString
  /-- The call `axios.get(url, headers)`: `response.data` when the promise
  resolves, the error when it rejects. -/
  axiosGet : JSString → JSString → Except JSError JSValue
  /-- The call `axios.post(url, payload, headers)`, the bearer token given as
  the value interpolated into the header. -/
  axiosPost : JSString → JSValue → JSValue → Except JSError JSValue
  /-- The engine's wording of a `TypeError`. -/
  engineMessage : TypeErrorKind → JSString
  /-- Mongoose's cast of a value assigned to a `String` path. -/
  castString : JSValue → JSValue
  /-- The `_id` Mongoose generates for a new document. -/
  newId : JSValue
  /-- The schema default `Date.now` for `createdAt`. -/
  dateNow : JSValue
  /-- The outcome of `doc.save()` against the current collection: `none` when
  the write succeeds, the rejection otherwise. -/
  saveError : Store → ContactDoc → Option JSError
  /-- Express path matching: `pathMatches pattern url`. -/
  pathMatches : JSString → JSString → Bool

/-- The `TypeError` thrown for `kind`. -/
def Env.typeError (env : Env) (kind : TypeErrorKind) : JSError :=
  ⟨env.engineMessage kind, .undefined⟩

/-- Property read `v.k` for a key that no built-in prototype defines: throws on
`null` and `undefined`, reads the own property of an object, and is `undefined`
on every other value. -/
def getProp (env : Env) (v : JSValue) (k : JSString) : Except JSError JSValue :=
  match v with
  | .undefined => .error (env.typeError (.propertyOfNullish .undefined k))
  | .null => .error (env.typeError (.propertyOfNullish .null k))
  | .object props => .ok (lookupProp props k)
  | _ => .ok .undefined

/-- An environment variable interpolated into a template literal. -/
def interpolate (v : Option JSString) : JSString :=
  v.getD (js "undefined")

/-- An environment variable used as a value. -/
def envValue (v : Option JSString) : JSValue :=
  match v with
  | some s => .string s
  | none => .undefined

/-- The expression `error.response?.data || error.message`. -/
def errorDetail (e : JSError) : JSValue :=
  if e.responseData.truthy then e.responseData else .string e.message

/-- What a handler did with the request: it sent a response, or its promise
rejected before any response was sent. -/
inductive Outcome where
  | responded (status : Nat) (body : JSValue)
  | rejected (error : JSError)

/-- The result of running a handler. -/
structure HandlerResult where
  outcome : Outcome
  trace : List Effect
  store : Store

/-- The token endpoint (line 40). -/
def tokenUrl : JSString :=
  js "https://sandbox.safaricom.co.ke/oauth/v1/generate?grant_type=client_credentials"

/-- The push endpoint (line 100). -/
def stkPushUrl : JSString :=
  js "https://sandbox.safaricom.co.ke/mpesa/stkpush/v1/processrequest"

/-- The function `getAccessToken` (lines 36-52): the effects it performs and
the token it returns or the error it throws. -/
def getAccessToken (env : Env) : List Effect × Except JSError JSValue :=
  let auth := env.base64
    (interpolate env.config.MPESA_CONSUMER_KEY ++ js ":" ++
      interpolate env.config.MPESA_CONSUMER_SECRET)
  let authorization := js "Basic " ++ auth
  let attempt : Except JSError JSValue :=
    match env.axiosGet tokenUrl authorization with
    | .ok data => getProp env data (js "access_token")
    | .error e => .error e
  match attempt with
  | .ok token => ([.httpGet tokenUrl authorization], .ok token)
  | .error e =>
    ([.httpGet tokenUrl authorization,
      .consoleError (js "❌ M-Pesa token error:") (.value (errorDetail e))],
     .error ⟨js "Failed to get M-Pesa access token", .undefined⟩)

/-- The call `formatPhoneNumber(phone)` on an arbitrary value: `phone.trim()`
exists only on strings. -/
def formatPhoneNumberCall (env : Env) (phone : JSValue) : Except JSError JSString :=
  match phone with
  | .string s => .ok (formatPhoneNumber s)
  | .undefined => .error (env.typeError (.propertyOfNullish .undefined (js "trim")))
  | .null => .error (env.typeError (.propertyOfNullish .null (js "trim")))
  | _ => .error (env.typeError (.notAFunction (js "phone.trim")))

/-- The request object built at lines 85-97. -/
def stkPushPayload (env : Env) (amount : JSValue) (formattedPhone : JSString) : JSValue :=
  let timestamp := env.timestamp
  let password := env.base64
    (interpolate env.config.MPESA_SHORTCODE ++ interpolate env.config.MPESA_PASSKEY ++ timestamp)
  .object [
    (js "BusinessShortCode", envValue env.config.MPESA_SHORTCODE),
    (js "Password", .string password),
    (js "Timestamp", .string timestamp),
    (js "TransactionType", .string (js "CustomerPayBillOnline")),
    (js "Amount", amount),
    (js "PartyA", .string formattedPhone),
    (js "PartyB", envValue env.config.MPESA_SHORTCODE),
    (js "PhoneNumber", .string formattedPhone),
    (js "CallBackURL", envValue env.config.MPESA_CALLBACK_URL),
    (js "AccountReference", .string (js "User Payment")),
    (js "TransactionDesc", .string (js "Payment for services"))]

/-- The comparison `v === '0'`. -/
def isStringZero (v : JSValue) : Bool :=
  match v with
  | .string s => s == js "0"
  | _ => false

/-- The `try` block of the STK push handler (lines 81-115): its effects, and
the response it sends or the error it throws into the `catch`. -/
def stkPushTry (env : Env) (amount : JSValue) (formattedPhone : JSString) :
    List Effect × Except JSError (Nat × JSValue) :=
  match getAccessToken env with
  | (t1, .error e) => (t1, .error e)
  | (t1, .ok accessToken) =>
    let payload := stkPushPayload env amount formattedPhone
    let t2 := t1 ++ [.httpPost stkPushUrl payload accessToken]
    match env.axiosPost stkPushUrl payload accessToken with
    | .error e => (t2, .error e)
    | .ok data =>
      match getProp env data (js "ResponseCode") with
      | .error e => (t2, .error e)
      | .ok code =>
        if isStringZero code then
          (t2, .ok (200, .object [
            (js "message", .string (js "✅ STK Push initiated successfully!")),
            (js "data", data)]))
        else
          (t2 ++ [.consoleError (js "❌ STK Push failed:") (.value data)],
           .ok (500, .object [
            (js "message", .string (js "STK Push initiation failed.")),
            (js "error", data)]))

/-- The handler of `POST /api/stk-push` (lines 55-120). The call of
`formatPhoneNumber` at line 78 stands before the `try`. -/
def stkPushHandler (env : Env) (store : Store) (body : Body) : HandlerResult :=
  let amount := lookupProp body (js "amount")
  let phone := lookupProp body (js "phone")
  if !amount.truthy || !phone.truthy then
    { outcome := .responded 400 (.object [
        (js "message", .string (js "Amount and phone number are required."))]),
      trace := [], store := store }
  else
    match formatPhoneNumberCall env phone with
    | .error e => { outcome := .rejected e, trace := [], store := store }
    | .ok formattedPhone =>
      match stkPushTry env amount formattedPhone with
      | (t, .ok (status, responseBody)) =>
        { outcome := .responded status responseBody, trace := t, store := store }
      | (t, .error e) =>
        { outcome := .responded 500 (.object [
            (js "message", .string (js "Server error during M-Pesa STK Push.")),
            (js "error", .string e.message)]),
          trace := t ++ [.consoleError (js "❌ STK Push error:") (.value (errorDetail e))],
          store := store }

/-- The first handler of `POST /api/mpesa-callback` (lines 123-129). -/
def mpesaCallbackHandler (_env : Env) (store : Store) (reqBody : JSValue) : HandlerResult :=
  { outcome := .responded 200 (.object [(js "message", .string (js "✅ Callback received"))]),
    trace := [.consoleLog (js "📲 M-Pesa Callback received:") (.value reqBody)],
    store := store }

/-- The second handler registered for `POST /api/mpesa-callback` (lines 164-167). -/
def mpesaCallbackHandler2 (_env : Env) (store : Store) (reqBody : JSValue) : HandlerResult :=
  { outcome := .responded 200 (.object [(js "message", .string (js "Callback received"))]),
    trace := [.consoleLog (js "📲 M-Pesa Callback received:") (.value reqBody)],
    store := store }

/-- The handler of `GET /` (lines 143-145). -/
def rootHandler (_env : Env) (store : Store) (_body : Body) : HandlerResult :=
  { outcome := .responded 200 (.string (js "✅ KivRims Backend API is running!")),
    trace := [], store := store }

/-- The expression `new ContactMessage({ name, email, subject, message })`:
the four `String` paths are cast, `_id` and `createdAt` take their defaults. -/
def newContactMessage (env : Env) (name email subject message : JSValue) : ContactDoc :=
  { id := env.newId,
    name := env.castString name,
    email := env.castString email,
    subject := env.castString subject,
    message := env.castString message,
    createdAt := env.dateNow }

/-- A saved document as it is serialised into a response: the paths of the
schema, the identifier, and the version key `__v` that Mongoose sets to 0 on
the first save. -/
def ContactDoc.toJSON (d : ContactDoc) : JSValue :=
  .object [
    (js "name", d.name),
    (js "email", d.email),
    (js "subject", d.subject),
    (js "message", d.message),
    (js "_id", d.id),
    (js "createdAt", d.createdAt),
    (js "__v", .number (.finite 0 0))]

/-- The handler of `POST /api/contact` (lines 147-162). A successful
`save()` adds the document to the collection. -/
def contactHandler (env : Env) (store : Store) (body : Body) : HandlerResult :=
  let name := lookupProp body (js "name")
  let email := lookupProp body (js "email")
  let subject := lookupProp body (js "subject")
  let message := lookupProp body (js "message")
  if !name.truthy || !email.truthy || !subject.truthy || !message.truthy then
    { outcome := .responded 400 (.object [
        (js "message", .string (js "All fields are required."))]),
      trace := [], store := store }
  else
    let newMessage := newContactMessage env name email subject message
    match env.saveError store newMessage with
    | none =>
      { outcome := .responded 201 (.object [
          (js "message", .string (js "✅ Contact message sent successfully!")),
          (js "data", newMessage.toJSON)]),
        trace := [], store := store ++ [newMessage] }
    | some e =>
      { outcome := .responded 500 (.object [
          (js "message", .string (js "Server error.")),
          (js "error", .string e.message)]),
        trace := [.consoleError (js "❌ Contact message error:") (.error e)],
        store := store }

/-! ## Routing -/

/-- The HTTP method of a request. -/
inductive Method where
  | GET
  | HEAD
  | POST
  | OPTIONS
  | other
  deriving DecidableEq

/-- The five route handlers of `server.js`, named in registration order. -/
inductive HandlerId where
  | stkPush
  | mpesaCallback
  | root
  | contact
  | mpesaCallback2
  deriving DecidableEq

/-- One `app.METHOD(path, handler)` registration. -/
structure Route where
  method : Method
  path : JSString
  handler : HandlerId

/-- The route table in registration order (lines 55, 123, 143, 147, 164). -/
def routes : List Route :=
  [ ⟨.POST, js "/api/stk-push", .stkPush⟩,
    ⟨.POST, js "/api/mpesa-callback", .mpesaCallback⟩,
    ⟨.GET, js "/", .root⟩,
    ⟨.POST, js "/api/contact", .contact⟩,
    ⟨.POST, js "/api/mpesa-callback", .mpesaCallback2⟩ ]

/-- Whether a route registered for `route` handles a request of method
`request`: its own method, and `HEAD` on a `GET` route. -/
def methodMatches (route request : Method) : Bool :=
  decide (route = request) || (decide (route = .GET) && decide (request = .HEAD))

/-- Express dispatch: the first registered route whose method and path match
runs; none of the handlers calls `next`, so no later route is tried. -/
def dispatch (env : Env) (method : Method) (url : JSString) : Option HandlerId :=
  (routes.find? (fun r => methodMatches r.method method && env.pathMatches r.path url)).map
    (fun r => r.handler)

/-- The own properties of `req.body` that a destructuring can read: those of
an object; the indices of an array. -/
def ownProps : JSValue → Body
  | .object props => props
  | .array items =>
    ((List.range items.length).zip items).map (fun iv => (js (toString iv.1), iv.2))
  | _ => []

/-- The code of a handler, run on `req.body`. -/
def runHandler (h : HandlerId) (env : Env) (store : Store) (reqBody : JSValue) :
    HandlerResult :=
  match h with
  | .stkPush => stkPushHandler env store (ownProps reqBody)
  | .mpesaCallback => mpesaCallbackHandler env store reqBody
  | .root => rootHandler env store (ownProps reqBody)
  | .contact => contactHandler env store (ownProps reqBody)
  | .mpesaCallback2 => mpesaCallbackHandler2 env store reqBody

/-- The byte limit of `express.json()` with its default options, `100kb`. -/
def jsonLimit : Nat := 102400

/-- The middleware `express.json()` of line 14, with its default options, on a
JSON body given by the value its text denotes and the length of the text in
bytes: a body over the limit fails with status 413; in strict mode a JSON text
that is not an object or an array fails with status 400; otherwise `req.body`
is the parsed value. -/
def expressJson (json : JSValue) (byteLength : Nat) : Except Nat JSValue :=
  if jsonLimit < byteLength then .error 413
  else
    match json with
    | .object props => .ok (.object props)
    | .array items => .ok (.array items)
    | _ => .error 400

/-- Whether a JSON value is an object or an array. -/
def JSValue.isObjectOrArray : JSValue → Bool
  | .object _ => true
  | .array _ => true
  | _ => false

/-- A request that carries a JSON body (`Content-Type: application/json`):
method, path, the value the body text denotes and the length of the text in
bytes. -/
structure Request where
  method : Method
  url : JSString
  json : JSValue
  byteLength : Nat

/-- What the application does with a request. -/
inductive ServerResult where
  /-- The middleware `cors()` of line 13 answered an `OPTIONS` request with 204. -/
  | preflight
  /-- The middleware `express.json()` failed; Express answers with that status
  and no route runs. -/
  | parseFailed (status : Nat)
  /-- No route matched: Express answers 404. -/
  | notFound
  /-- The handler that ran, and its result. -/
  | handled (handler : HandlerId) (result : HandlerResult)

/-- One request through the application, in the order of `server.js`: `cors()`
(line 13), `express.json()` (line 14), then the routes. -/
def handleRequest (env : Env) (store : Store) (req : Request) : ServerResult :=
  if req.method = .OPTIONS then .preflight
  else
    match expressJson req.json req.byteLength with
    | .error status => .parseFailed status
    | .ok reqBody =>
      match dispatch env req.method req.url with
      | none => .notFound
      | some h => .handled h (runHandler h env store reqBody)

/-! ## Sample environments -/

/-- The gateway response body carries the success code: it is an object whose
`ResponseCode` is the string `'0'`. -/
def carriesSuccessCode (d : JSValue) : Bool :=
  match d with
  | .object props => isStringZero (lookupProp props (js "ResponseCode"))
  | _ => false

/-- V8's wording of the two `TypeError`s. -/
def v8Message : TypeErrorKind → JSString
  | .notAFunction callee => callee ++ js " is not a function"
  | .propertyOfNullish .null key =>
    js "Cannot read properties of null (reading '" ++ key ++ js "')"
  | .propertyOfNullish _ key =>
    js "Cannot read properties of undefined (reading '" ++ key ++ js "')"

/-- A sandbox configuration. -/
def sampleConfig : Config :=
  { MPESA_CONSUMER_KEY := some (js "key"),
    MPESA_CONSUMER_SECRET := some (js "secret"),
    MPESA_PASSKEY := some (js "passkey"),
    MPESA_SHORTCODE := some (js "174379"),
    MPESA_CALLBACK_URL := some (js "https://example.com/api/mpesa-callback") }

/-- An environment in which every outside call succeeds: the gateway issues a
token and accepts the push, the store accepts the write, strings are cast to
themselves and a path matches its own pattern. The encoder is a stand-in that
leaves its input as it is. -/
def sampleEnv : Env :=
  { config := sampleConfig,
    base64 := fun s => s,
    timestamp := js "20240101120000",
    axiosGet := fun _ _ => .ok (.object [(js "access_token", .string (js "token"))]),
    axiosPost := fun _ _ _ => .ok (.object [
      (js "ResponseCode", .string (js "0")),
      (js "CustomerMessage", .string (js "Success. Request accepted for processing"))]),
    engineMessage := v8Message,
    castString := fun v => v,
    newId := .string (js "665f1c2e9b1d8a0012345678"),
    dateNow := .string (js "2024-01-01T12:00:00.000Z"),
    saveError := fun _ _ => none,
    pathMatches := fun pattern url => pattern == url }

/-- The sample environment with a gateway whose push response body is the
JSON value `null`. -/
def nullGatewayEnv : Env :=
  { sampleEnv with axiosPost := fun _ _ _ => .ok .null }

/-- A well-formed push request. -/
def samplePushBody : Body :=
  [(js "amount", .number (.finite 100 0)), (js "phone", .string (js "0712345678"))]

/-- A push request whose phone number is a JSON number. -/
def numericPhoneBody : Body :=
  [(js "amount", .number (.finite 100 0)), (js "phone", .number (.finite 712345678 0))]

/-- A callback payload as the gateway posts it. -/
def sampleCallbackPayload : JSValue :=
  .object [(js "Body", .object [(js "stkCallback", .object [
    (js "ResultCode", .number (.finite 0 0)),
    (js "ResultDesc", .string (js "The service request is processed successfully."))])])]

/-- A well-formed contact form. -/
def sampleContactBody : Body :=
  [(js "name", .string (js "Amina")), (js "email", .string (js "amina@example.com")),
   (js "subject", .string (js "Hello")), (js "message", .string (js "Habari"))]

/-- A contact form whose `name` is present and empty. -/
def emptyNameContactBody : Body :=
  [(js "name", .string (js "")), (js "email", .string (js "amina@example.com")),
   (js "subject", .string (js "Hello")), (js "message", .string (js "Habari"))]

/-! ## Lemmas on strings -/

theorem js_plus : js "+" = [43] := by decide

theorem js_07 : js "07" = [48, 55] := by decide

theorem js_01 : js "01" = [48, 49] := by decide

theorem js_254 : js "254" = [50, 53, 52] := by decide

theorem js_plus254 : js "+254" = [43, 50, 53, 52] := by decide

theorem formatPhoneNumber_eq (s : JSString) :
    formatPhoneNumber s = formatTrimmed (trim s) := rfl

theorem dropWhile_concat_of_neg {p : Nat → Bool} (l : List Nat) (a : Nat) (h : p a = false) :
    (l ++ [a]).dropWhile p = l.dropWhile p ++ [a] := by
  induction l with
  | nil => simp [List.dropWhile, h]
  | cons b l ih =>
    by_cases hb : p b = true
    · simp [List.dropWhile, hb, ih]
    · simp [List.dropWhile, hb]

theorem trimEnd_cons (a : Nat) (l : JSString) (h : isWhiteSpace a = false) :
    trimEnd (a :: l) = a :: trimEnd l := by
  unfold trimEnd List.rdropWhile
  rw [List.reverse_cons, dropWhile_concat_of_neg _ _ h]
  simp

theorem trimStart_cons (a : Nat) (l : JSString) (h : isWhiteSpace a = false) :
    trimStart (a :: l) = a :: l := by
  simp [trimStart, List.dropWhile, h]

theorem trim_cons (a : Nat) (l : JSString) (h : isWhiteSpace a = false) :
    trim (a :: l) = a :: trimEnd l := by
  rw [trim, trimStart_cons a l h, trimEnd_cons a l h]

theorem trimEnd_trimEnd (l : JSString) : trimEnd (trimEnd l) = trimEnd l :=
  List.rdropWhile_idempotent _ _

theorem trimEnd_length_le (l : JSString) : (trimEnd l).length ≤ l.length :=
  (List.rdropWhile_prefix isWhiteSpace l).length_le

theorem trimStart_length_le (l : JSString) : (trimStart l).length ≤ l.length :=
  (List.dropWhile_suffix isWhiteSpace (l := l)).length_le

theorem trim_length_le (l : JSString) : (trim l).length ≤ l.length :=
  (trimEnd_length_le _).trans (trimStart_length_le l)

theorem trimStart_cases (s : JSString) :
    trimStart s = [] ∨ ∃ a l, trimStart s = a :: l ∧ isWhiteSpace a = false := by
  induction s with
  | nil => left; rfl
  | cons b s ih =>
    by_cases hb : isWhiteSpace b = true
    · have : trimStart (b :: s) = trimStart s := by simp [trimStart, List.dropWhile, hb]
      rw [this]; exact ih
    · right
      exact ⟨b, s, trimStart_cons b s (by simpa using hb), by simpa using hb⟩

/-- The shape of a trimmed string: empty, or a non-blank first code unit
followed by a string with no blank at its end. -/
theorem trim_cases (s : JSString) :
    trim s = [] ∨ ∃ a l, trim s = a :: l ∧ isWhiteSpace a = false ∧ trimEnd l = l := by
  rcases trimStart_cases s with h | ⟨a, l, h, ha⟩
  · left; simp [trim, h, trimEnd]
  · right
    refine ⟨a, trimEnd l, ?_, ha, trimEnd_trimEnd l⟩
    rw [trim, h, trimEnd_cons a l ha]

theorem trim_trim (s : JSString) : trim (trim s) = trim s := by
  rcases trim_cases s with h | ⟨a, l, h, ha, hl⟩
  · rw [h]; rfl
  · rw [h, trim_cons a l ha, hl]

theorem startsWith_iff (s p : JSString) : startsWith s p = true ↔ ∃ r, s = p ++ r := by
  rw [startsWith, List.isPrefixOf_iff_prefix]
  constructor
  · rintro ⟨r, hr⟩; exact ⟨r, hr.symm⟩
  · rintro ⟨r, hr⟩; exact ⟨r, hr.symm⟩

theorem startsWith_cons_one (a b : Nat) (l : JSString) :
    startsWith (a :: l) [b] = (b == a) := by
  simp [startsWith, List.isPrefixOf]

theorem startsWith_cons_two (a b c : Nat) (l : JSString) :
    startsWith (a :: l) [b, c] = (b == a && startsWith l [c]) := by
  simp [startsWith, List.isPrefixOf]

theorem startsWith_nil (p : JSString) (a : Nat) : startsWith [] (a :: p) = false := by
  simp [startsWith, List.isPrefixOf]

/-- The string with leading zero: `s` starts with `07` or `01` exactly when it is
`0`, then `7` or `1`, then a rest. -/
theorem leadingZero_iff (s : JSString) :
    (startsWith s (js "07") || startsWith s (js "01")) = true ↔
      ∃ d r, s = 48 :: d :: r ∧ (d = 55 ∨ d = 49) := by
  rw [Bool.or_eq_true, startsWith_iff, startsWith_iff, js_07, js_01]
  constructor
  · rintro (⟨r, hr⟩ | ⟨r, hr⟩)
    · exact ⟨55, r, hr, Or.inl rfl⟩
    · exact ⟨49, r, hr, Or.inr rfl⟩
  · rintro ⟨d, r, hs, hd | hd⟩
    · left; exact ⟨r, by rw [hs, hd]; rfl⟩
    · right; exact ⟨r, by rw [hs, hd]; rfl⟩

theorem replaceLeadingZero_zero (d : Nat) (r : JSString) (hd : d = 55 ∨ d = 49) :
    replaceLeadingZero (48 :: d :: r) = 50 :: 53 :: 52 :: d :: r := by
  have h : (startsWith (48 :: d :: r) (js "07") || startsWith (48 :: d :: r) (js "01")) = true :=
    (leadingZero_iff _).mpr ⟨d, r, rfl, hd⟩
  rw [replaceLeadingZero, if_pos h, js_254]
  rfl

theorem replaceLeadingZero_other (t : JSString)
    (h : (startsWith t (js "07") || startsWith t (js "01")) = false) :
    replaceLeadingZero t = t := by
  rw [replaceLeadingZero, h]
  rfl

theorem notWhiteSpace_digit (d : Nat) (hd : d = 55 ∨ d = 49) : isWhiteSpace d = false := by
  rcases hd with h | h <;> subst h <;> decide

/-- The normaliser on a string that starts with `0` and then `7` or `1`. -/
theorem formatPhoneNumber_zero (d : Nat) (r : JSString) (hd : d = 55 ∨ d = 49) :
    formatPhoneNumber (48 :: d :: r) = 50 :: 53 :: 52 :: d :: trimEnd r := by
  have h48 : isWhiteSpace 48 = false := by decide
  rw [formatPhoneNumber_eq, trim_cons 48 _ h48, trimEnd_cons d r (notWhiteSpace_digit d hd),
    formatTrimmed, js_plus, startsWith_cons_one]
  have : (43 == 48) = false := by decide
  rw [this, if_neg Bool.false_ne_true]
  exact replaceLeadingZero_zero d _ hd

/-- A normalised number `254…` is left as it is. -/
theorem formatPhoneNumber_stable (d : Nat) (r : JSString) (hd : d = 55 ∨ d = 49)
    (hr : trimEnd r = r) :
    formatPhoneNumber (50 :: 53 :: 52 :: d :: r) = 50 :: 53 :: 52 :: d :: r := by
  have h50 : isWhiteSpace 50 = false := by decide
  have h53 : isWhiteSpace 53 = false := by decide
  have h52 : isWhiteSpace 52 = false := by decide
  rw [formatPhoneNumber_eq, trim_cons 50 _ h50, trimEnd_cons 53 _ h53, trimEnd_cons 52 _ h52,
    trimEnd_cons d r (notWhiteSpace_digit d hd), hr, formatTrimmed, js_plus, startsWith_cons_one]
  have : (43 == 50) = false := by decide
  rw [this, if_neg Bool.false_ne_true]
  apply replaceLeadingZero_other
  rw [js_07, js_01, startsWith_cons_two, startsWith_cons_two]
  have : (48 == 50) = false := by decide
  rw [this]
  rfl

theorem formatTrimmed_nil : formatTrimmed [] = [] := by decide

theorem formatTrimmed_plus (u : JSString) :
    formatTrimmed (43 :: u) = replaceLeadingZero u := by
  rw [formatTrimmed, js_plus, startsWith_cons_one]
  rfl

theorem formatTrimmed_other (t : JSString) (h : startsWith t (js "+") = false) :
    formatTrimmed t = replaceLeadingZero t := by
  rw [formatTrimmed, h, if_neg Bool.false_ne_true]

theorem startsWith_plus_cons (a : Nat) (l : JSString) (h : a ≠ 43) :
    startsWith (a :: l) (js "+") = false := by
  rw [js_plus, startsWith_cons_one]
  simpa using fun h43 => h h43.symm

/-- The two outcomes of the second rewrite. -/
theorem replaceLeadingZero_cases (t : JSString) :
    (∃ d r, t = 48 :: d :: r ∧ (d = 55 ∨ d = 49) ∧
        replaceLeadingZero t = 50 :: 53 :: 52 :: d :: r) ∨
      ((startsWith t (js "07") || startsWith t (js "01")) = false ∧
        replaceLeadingZero t = t) := by
  cases h : (startsWith t (js "07") || startsWith t (js "01"))
  · right; exact ⟨rfl, replaceLeadingZero_other t h⟩
  · left
    obtain ⟨d, r, ht, hd⟩ := (leadingZero_iff t).mp h
    exact ⟨d, r, ht, hd, by rw [ht]; exact replaceLeadingZero_zero d r hd⟩

/-- A trimmed string without a leading `+` is normalised to a fixed point. -/
theorem formatPhoneNumber_fixed (t : JSString) (ht : trim t = t)
    (hp : startsWith t (js "+") = false) :
    formatPhoneNumber (replaceLeadingZero t) = replaceLeadingZero t := by
  rcases replaceLeadingZero_cases t with ⟨d, r, rfl, hd, hz⟩ | ⟨_, hz⟩
  · rw [hz]
    have h48 : isWhiteSpace 48 = false := by decide
    rw [trim_cons 48 _ h48, trimEnd_cons d r (notWhiteSpace_digit d hd)] at ht
    have hr : trimEnd r = r := by simpa using ht
    exact formatPhoneNumber_stable d r hd hr
  · rw [hz, formatPhoneNumber_eq, ht, formatTrimmed_other t hp, hz]

/-- A string with a blank in front is changed by the normaliser. -/
theorem formatPhoneNumber_ne_of_blank (c : Nat) (r : JSString) (hc : isWhiteSpace c = true) :
    formatPhoneNumber (c :: r) ≠ c :: r := by
  have htrim : trim (c :: r) = trim r := by simp [trim, trimStart, List.dropWhile, hc]
  have hlen := trim_length_le r
  have hc50 : c ≠ 50 := by rintro rfl; exact absurd hc (by decide)
  rw [formatPhoneNumber_eq, htrim]
  rcases trim_cases r with h | ⟨a, l, h, ha, _⟩
  · rw [h, formatTrimmed_nil]; exact (List.cons_ne_nil c r).symm
  · rw [h] at hlen ⊢
    by_cases h43 : a = 43
    · subst h43
      rw [formatTrimmed_plus]
      rcases replaceLeadingZero_cases l with ⟨d, q, _, _, hz⟩ | ⟨_, hz⟩
      · rw [hz]; intro heq; exact hc50 (List.cons.inj heq).1.symm
      · rw [hz]; intro heq
        have := congrArg List.length heq
        simp only [List.length_cons] at this hlen
        omega
    · rw [formatTrimmed_other _ (startsWith_plus_cons a l h43)]
      rcases replaceLeadingZero_cases (a :: l) with ⟨d, q, _, _, hz⟩ | ⟨_, hz⟩
      · rw [hz]; intro heq; exact hc50 (List.cons.inj heq).1.symm
      · rw [hz]; intro heq
        have hac : a = c := (List.cons.inj heq).1
        rw [hac, hc] at ha
        exact Bool.noConfusion ha

/-- A string with `+` in front is changed by the normaliser. -/
theorem formatPhoneNumber_ne_of_plus (r : JSString) :
    formatPhoneNumber (43 :: r) ≠ 43 :: r := by
  have h43 : isWhiteSpace 43 = false := by decide
  have hlen := trimEnd_length_le r
  rw [formatPhoneNumber_eq, trim_cons 43 r h43, formatTrimmed_plus]
  rcases replaceLeadingZero_cases (trimEnd r) with ⟨d, q, _, _, hz⟩ | ⟨_, hz⟩
  · rw [hz]; intro heq; exact absurd (List.cons.inj heq).1 (by decide)
  · rw [hz]; intro heq
    have := congrArg List.length heq
    simp only [List.length_cons] at this
    omega

/-- Idempotence on a trimmed input, case by case. -/
theorem formatTrimmed_idempotent_iff (a : Nat) (l : JSString) (ha : isWhiteSpace a = false)
    (hl : trimEnd l = l) :
    formatPhoneNumber (formatTrimmed (a :: l)) = formatTrimmed (a :: l) ↔
      plusThenGap (a :: l) = false := by
  by_cases h43 : a = 43
  · subst h43
    rw [formatTrimmed_plus]
    cases l with
    | nil => exact ⟨fun _ => rfl, fun _ => by decide⟩
    | cons c r =>
      by_cases hgap : (c == 43 || isWhiteSpace c) = true
      · have hpg : plusThenGap (43 :: c :: r) = true := by simp [plusThenGap, hgap]
        have hc48 : c ≠ 48 := by
          rintro rfl; exact absurd hgap (by decide)
        have hz : replaceLeadingZero (c :: r) = c :: r := by
          apply replaceLeadingZero_other
          rw [js_07, js_01, startsWith_cons_two, startsWith_cons_two]
          have : (48 == c) = false := by simpa using fun h => hc48 h.symm
          rw [this]; rfl
        rw [hz, hpg]
        constructor
        · intro h
          rcases Bool.or_eq_true _ _ ▸ hgap with hc | hc
          · have : c = 43 := by simpa using hc
            subst this
            exact absurd h (formatPhoneNumber_ne_of_plus r)
          · exact absurd h (formatPhoneNumber_ne_of_blank c r hc)
        · intro h; exact Bool.noConfusion h
      · have hgap2 : (c == 43 || isWhiteSpace c) = false := by simpa using hgap
        have hpg : plusThenGap (43 :: c :: r) = false := by simp [plusThenGap, hgap2]
        rw [hpg]
        rw [Bool.or_eq_false_iff] at hgap2
        have hcws : isWhiteSpace c = false := hgap2.2
        have hc43 : c ≠ 43 := by simpa using hgap2.1
        refine ⟨fun _ => rfl, fun _ => ?_⟩
        apply formatPhoneNumber_fixed
        · rw [trim_cons c r hcws]
          rw [trimEnd_cons c r hcws] at hl
          exact hl
        · exact startsWith_plus_cons c r hc43
  · have hpg : plusThenGap (a :: l) = false := by
      cases l with
      | nil => rfl
      | cons c r => simp [plusThenGap, h43]
    rw [hpg, formatTrimmed_other _ (startsWith_plus_cons a l h43)]
    refine ⟨fun _ => rfl, fun _ => ?_⟩
    apply formatPhoneNumber_fixed
    · rw [trim_cons a l ha, hl]
    · exact startsWith_plus_cons a l h43

/-! ## The phone-number normaliser -/

/-- C2, as stated, fails: `"07 "` starts with `0` then `7`, its normal form
`"2547"` has length 4, not 3 + 2, because `trim` removed the trailing blank. -/
theorem C2_counterexample :
    startsWith (js "07 ") (js "07") = true ∧
      formatPhoneNumber (js "07 ") = js "2547" ∧
      (formatPhoneNumber (js "07 ")).length ≠ (js "07 ").length + 2 := by
  decide

/-- C2, amended: for every string that starts with `0` followed by `7` or `1`,
the normal form is `254` followed by the trimmed string without its first code
unit; it starts with `254`, its length is the length of the trimmed string
plus 2, and that is the length of the string plus 2 when the string does not
end in whitespace. -/
theorem C2_leading_zero (s : JSString)
    (h : (startsWith s (js "07") || startsWith s (js "01")) = true) :
    formatPhoneNumber s = js "254" ++ slice (trim s) 1 ∧
      startsWith (formatPhoneNumber s) (js "254") = true ∧
      (formatPhoneNumber s).length = (trim s).length + 2 ∧
      (trimEnd s = s → (formatPhoneNumber s).length = s.length + 2) := by
  obtain ⟨d, r, rfl, hd⟩ := (leadingZero_iff s).mp h
  have h48 : isWhiteSpace 48 = false := by decide
  have hd0 := notWhiteSpace_digit d hd
  have htrim : trim (48 :: d :: r) = 48 :: d :: trimEnd r := by
    rw [trim_cons 48 _ h48, trimEnd_cons d r hd0]
  have hlen : (formatPhoneNumber (48 :: d :: r)).length = (trim (48 :: d :: r)).length + 2 := by
    rw [formatPhoneNumber_zero d r hd, htrim]
    simp
  refine ⟨?_, ?_, hlen, ?_⟩
  · rw [formatPhoneNumber_zero d r hd, htrim, js_254]
    rfl
  · rw [formatPhoneNumber_zero d r hd, startsWith_iff, js_254]
    exact ⟨d :: trimEnd r, rfl⟩
  · intro hs
    rw [hlen, trim_cons 48 _ h48, ← trimEnd_cons 48 _ h48, hs]

/-- C2 at `"0712345678"`. -/
theorem C2_leading_zero_witness :
    formatPhoneNumber (js "0712345678") = js "254" ++ slice (trim (js "0712345678")) 1 ∧
      startsWith (formatPhoneNumber (js "0712345678")) (js "254") = true ∧
      (formatPhoneNumber (js "0712345678")).length = (trim (js "0712345678")).length + 2 ∧
      (trimEnd (js "0712345678") = js "0712345678" →
        (formatPhoneNumber (js "0712345678")).length = (js "0712345678").length + 2) :=
  C2_leading_zero (js "0712345678") (by decide)

/-- C3, as stated, fails: `"+254 "` starts with `+254`, but its normal form is
`"254"`, while removing the first code unit alone leaves `"254 "`. -/
theorem C3_counterexample :
    startsWith (js "+254 ") (js "+254") = true ∧
      formatPhoneNumber (js "+254 ") = js "254" ∧
      formatPhoneNumber (js "+254 ") ≠ slice (js "+254 ") 1 := by
  decide

/-- C3, amended: for every string that starts with `+254`, the normal form is
the trimmed string without its first code unit `+`; it is the string itself
without its first code unit when the string does not end in whitespace. -/
theorem C3_plus_prefix (s : JSString) (h : startsWith s (js "+254") = true) :
    formatPhoneNumber s = slice (trim s) 1 ∧
      (trimEnd s = s → formatPhoneNumber s = slice s 1) := by
  rw [startsWith_iff, js_plus254] at h
  obtain ⟨r, rfl⟩ := h
  have h43 : isWhiteSpace 43 = false := by decide
  have h50 : isWhiteSpace 50 = false := by decide
  have h53 : isWhiteSpace 53 = false := by decide
  have h52 : isWhiteSpace 52 = false := by decide
  have htrim : trim ([43, 50, 53, 52] ++ r) = 43 :: 50 :: 53 :: 52 :: trimEnd r := by
    show trim (43 :: 50 :: 53 :: 52 :: r) = _
    rw [trim_cons 43 _ h43, trimEnd_cons 50 _ h50, trimEnd_cons 53 _ h53, trimEnd_cons 52 _ h52]
  have hz : replaceLeadingZero (50 :: 53 :: 52 :: trimEnd r) = 50 :: 53 :: 52 :: trimEnd r := by
    apply replaceLeadingZero_other
    rw [js_07, js_01, startsWith_cons_two, startsWith_cons_two]
    rfl
  have hf : formatPhoneNumber ([43, 50, 53, 52] ++ r) = slice (trim ([43, 50, 53, 52] ++ r)) 1 := by
    rw [formatPhoneNumber_eq, htrim, formatTrimmed_plus, hz]
    rfl
  refine ⟨hf, fun hs => ?_⟩
  have hs2 : trim ([43, 50, 53, 52] ++ r) = [43, 50, 53, 52] ++ r := by
    show trim (43 :: 50 :: 53 :: 52 :: r) = _
    rw [trim_cons 43 _ h43]
    have hs3 : trimEnd (43 :: 50 :: 53 :: 52 :: r) = 43 :: 50 :: 53 :: 52 :: r := hs
    rw [trimEnd_cons 43 _ h43] at hs3
    exact hs3
  rw [hf, hs2]

/-- C3 at `"+254712345678"`. -/
theorem C3_plus_prefix_witness :
    formatPhoneNumber (js "+254712345678") = slice (trim (js "+254712345678")) 1 ∧
      (trimEnd (js "+254712345678") = js "+254712345678" →
        formatPhoneNumber (js "+254712345678") = slice (js "+254712345678") 1) :=
  C3_plus_prefix (js "+254712345678") (by decide)

/-- C4, as stated, fails: `" 07"` starts with none of `+`, `07`, `01`, yet its
normal form is `"2547"`, not the string itself. -/
theorem C4_counterexample :
    startsWith (js " 07") (js "+") = false ∧
      startsWith (js " 07") (js "07") = false ∧
      startsWith (js " 07") (js "01") = false ∧
      formatPhoneNumber (js " 07") = js "2547" ∧
      formatPhoneNumber (js " 07") ≠ js " 07" := by
  decide

/-- C4, amended: for every string whose trimmed form starts with none of `+`,
`07`, `01`, the normal form is the trimmed string; it is the string itself
when the string has no whitespace at either end. -/
theorem C4_pass_through (s : JSString)
    (hplus : startsWith (trim s) (js "+") = false)
    (h07 : startsWith (trim s) (js "07") = false)
    (h01 : startsWith (trim s) (js "01") = false) :
    formatPhoneNumber s = trim s ∧ (trim s = s → formatPhoneNumber s = s) := by
  have hf : formatPhoneNumber s = trim s := by
    rw [formatPhoneNumber_eq, formatTrimmed_other _ hplus]
    apply replaceLeadingZero_other
    rw [h07, h01]
    rfl
  exact ⟨hf, fun hs => hf.trans hs⟩

/-- C4 at `"254712345678"`. -/
theorem C4_pass_through_witness :
    formatPhoneNumber (js "254712345678") = trim (js "254712345678") ∧
      (trim (js "254712345678") = js "254712345678" →
        formatPhoneNumber (js "254712345678") = js "254712345678") :=
  C4_pass_through (js "254712345678") (by decide) (by decide) (by decide)

/-- C10, as stated, fails: `"++254"` is normalised to `"+254"`, and that to
`"254"`. -/
theorem C10_counterexample :
    formatPhoneNumber (js "++254") = js "+254" ∧
      formatPhoneNumber (formatPhoneNumber (js "++254")) = js "254" ∧
      formatPhoneNumber (formatPhoneNumber (js "++254")) ≠ formatPhoneNumber (js "++254") := by
  decide

/-- C10, amended: normalising twice gives the same as normalising once exactly
for the strings whose trimmed form does not start with `+` directly followed
by a second `+` or by whitespace. -/
theorem C10_idempotent_iff (s : JSString) :
    formatPhoneNumber (formatPhoneNumber s) = formatPhoneNumber s ↔
      plusThenGap (trim s) = false := by
  rw [formatPhoneNumber_eq s]
  rcases trim_cases s with h | ⟨a, l, h, ha, hl⟩
  · rw [h]
    exact ⟨fun _ => rfl, fun _ => by decide⟩
  · rw [h]
    exact formatTrimmed_idempotent_iff a l ha hl

/-! ## Lemmas on the handlers -/

theorem lookupProp_of_not_hasProp (props : List (JSString × JSValue)) (k : JSString)
    (h : hasProp props k = false) : lookupProp props k = .undefined := by
  unfold lookupProp
  have hnone : props.find? (fun p => p.1 == k) = none := by
    rw [List.find?_eq_none]
    intro p hp hk
    have : hasProp props k = true := List.any_eq_true.mpr ⟨p, hp, hk⟩
    rw [h] at this
    exact Bool.noConfusion this
  rw [hnone]

theorem truthy_string (p : JSString) (hp : p ≠ []) : (JSValue.string p).truthy = true := by
  cases p with
  | nil => exact absurd rfl hp
  | cons a l => rfl

/-- The guard of the push handler passes on truthy fields. -/
theorem stkPush_guard (a ph : JSValue) (ha : a.truthy = true) (hp : ph.truthy = true) :
    (!a.truthy || !ph.truthy) = false := by
  rw [ha, hp]; rfl

/-- The push handler on a request whose phone number is a string: the guard
passes, the number is normalised and the `try` block decides the response. -/
theorem stkPushHandler_string (env : Env) (store : Store) (body : Body) (p : JSString)
    (hamount : (lookupProp body (js "amount")).truthy = true)
    (hphone : lookupProp body (js "phone") = .string p) (hp : p ≠ []) :
    stkPushHandler env store body =
      match stkPushTry env (lookupProp body (js "amount")) (formatPhoneNumber p) with
      | (t, .ok (status, responseBody)) =>
        { outcome := .responded status responseBody, trace := t, store := store }
      | (t, .error e) =>
        { outcome := .responded 500 (.object [
            (js "message", .string (js "Server error during M-Pesa STK Push.")),
            (js "error", .string e.message)]),
          trace := t ++ [.consoleError (js "❌ STK Push error:") (.value (errorDetail e))],
          store := store } := by
  have hg := stkPush_guard _ _ hamount (truthy_string p hp)
  unfold stkPushHandler
  simp only [hphone, hg, formatPhoneNumberCall, Bool.false_eq_true, if_false]

/-- The `try` block once the token is there and the gateway has answered. -/
theorem stkPushTry_answered (env : Env) (amount : JSValue) (phone : JSString)
    (token d : JSValue) (htoken : (getAccessToken env).2 = .ok token)
    (hpost : env.axiosPost stkPushUrl (stkPushPayload env amount phone) token = .ok d) :
    (stkPushTry env amount phone).2 =
      match getProp env d (js "ResponseCode") with
      | .error e => .error e
      | .ok code =>
        if isStringZero code then
          .ok (200, .object [
            (js "message", .string (js "✅ STK Push initiated successfully!")),
            (js "data", d)])
        else
          .ok (500, .object [
            (js "message", .string (js "STK Push initiation failed.")),
            (js "error", d)]) := by
  unfold stkPushTry
  rcases hga : getAccessToken env with ⟨t1, r⟩
  rw [hga] at htoken
  simp only at htoken
  subst htoken
  simp only [hpost]
  cases getProp env d (js "ResponseCode") with
  | error e => rfl
  | ok code =>
    by_cases hz : isStringZero code = true
    · simp only [hz, if_true]
    · simp only [hz, Bool.false_eq_true, if_false]

/-- The response of the push handler on a string phone number, read off the
result of the `try` block. -/
theorem stkPushHandler_outcome (env : Env) (store : Store) (body : Body) (p : JSString)
    (hamount : (lookupProp body (js "amount")).truthy = true)
    (hphone : lookupProp body (js "phone") = .string p) (hp : p ≠ []) :
    (stkPushHandler env store body).outcome =
      match (stkPushTry env (lookupProp body (js "amount")) (formatPhoneNumber p)).2 with
      | .ok (status, responseBody) => .responded status responseBody
      | .error e => .responded 500 (.object [
          (js "message", .string (js "Server error during M-Pesa STK Push.")),
          (js "error", .string e.message)]) := by
  rw [stkPushHandler_string env store body p hamount hphone hp]
  rcases stkPushTry env (lookupProp body (js "amount")) (formatPhoneNumber p) with
    ⟨t, ⟨e⟩ | ⟨status, responseBody⟩⟩ <;> rfl

/-- The `try` block sends 200 or 500 when it sends a response. -/
theorem stkPushTry_status (env : Env) (amount : JSValue) (phone : JSString)
    (status : Nat) (responseBody : JSValue)
    (h : (stkPushTry env amount phone).2 = .ok (status, responseBody)) :
    status = 200 ∨ status = 500 := by
  unfold stkPushTry at h
  rcases hga : getAccessToken env with ⟨t1, ⟨e⟩ | ⟨token⟩⟩
  · rw [hga] at h; simp at h
  · rw [hga] at h
    simp only at h
    cases hpost : env.axiosPost stkPushUrl (stkPushPayload env amount phone) token with
    | error e => rw [hpost] at h; simp at h
    | ok data =>
      rw [hpost] at h
      simp only at h
      cases hcode : getProp env data (js "ResponseCode") with
      | error e => rw [hcode] at h; simp at h
      | ok code =>
        rw [hcode] at h
        simp only at h
        by_cases hz : isStringZero code = true
        · simp only [hz, if_true, Except.ok.injEq, Prod.mk.injEq] at h
          exact Or.inl h.1.symm
        · simp only [hz, Bool.false_eq_true, if_false, Except.ok.injEq, Prod.mk.injEq] at h
          exact Or.inr h.1.symm

/-- On a request whose phone number is a non-empty string the push handler
always sends a response, with status 200 or 500. -/
theorem stkPushHandler_string_responds (env : Env) (store : Store) (body : Body)
    (p : JSString) (hamount : (lookupProp body (js "amount")).truthy = true)
    (hphone : lookupProp body (js "phone") = .string p) (hp : p ≠ []) :
    ∃ status responseBody,
      (stkPushHandler env store body).outcome = .responded status responseBody ∧
        (status = 200 ∨ status = 500) := by
  rw [stkPushHandler_outcome env store body p hamount hphone hp]
  rcases hr : (stkPushTry env (lookupProp body (js "amount")) (formatPhoneNumber p)).2 with
    e | ⟨status, responseBody⟩
  · exact ⟨500, _, rfl, Or.inr rfl⟩
  · exact ⟨status, responseBody, rfl, stkPushTry_status env _ _ status responseBody hr⟩

theorem pathMatches_cases (b : Bool) : b = true ∨ b = false := by
  cases b
  · exact Or.inr rfl
  · exact Or.inl rfl

/-! ## The handlers -/

/-- C1: a push request whose body lacks `amount` or lacks `phone` is answered
with status 400 and the message `Amount and phone number are required.`; the
trace of effects is empty, so neither the token request nor the push request
is made, and the store is untouched. -/
theorem C1_missing_field_rejected (env : Env) (store : Store) (body : Body)
    (h : hasProp body (js "amount") = false ∨ hasProp body (js "phone") = false) :
    stkPushHandler env store body =
      { outcome := .responded 400 (.object [
          (js "message", .string (js "Amount and phone number are required."))]),
        trace := [], store := store } := by
  have hg : (!(lookupProp body (js "amount")).truthy ||
      !(lookupProp body (js "phone")).truthy) = true := by
    rcases h with h | h
    · rw [lookupProp_of_not_hasProp body _ h]; rfl
    · rw [lookupProp_of_not_hasProp body _ h, Bool.or_eq_true]; right; rfl
  unfold stkPushHandler
  simp only [hg, if_true]

/-- C1 at the body `{amount: 100}`. -/
theorem C1_missing_field_rejected_witness :
    stkPushHandler sampleEnv [] [(js "amount", .number (.finite 100 0))] =
      { outcome := .responded 400 (.object [
          (js "message", .string (js "Amount and phone number are required."))]),
        trace := [], store := [] } :=
  C1_missing_field_rejected sampleEnv [] [(js "amount", .number (.finite 100 0))]
    (Or.inr (by decide))

/-- C5, as stated, fails: when the gateway answers the push with the body
`null`, the response is 500 and its `error` field is the exception message,
not the gateway body. -/
theorem C5_counterexample :
    (getAccessToken nullGatewayEnv).2 = .ok (.string (js "token")) ∧
      nullGatewayEnv.axiosPost stkPushUrl
        (stkPushPayload nullGatewayEnv (.number (.finite 100 0)) (js "254712345678"))
        (.string (js "token")) = .ok .null ∧
      (stkPushHandler nullGatewayEnv [] samplePushBody).outcome =
        .responded 500 (.object [
          (js "message", .string (js "Server error during M-Pesa STK Push.")),
          (js "error",
            .string (js "Cannot read properties of null (reading 'ResponseCode')"))]) ∧
      lookupProp [
          (js "message", .string (js "Server error during M-Pesa STK Push.")),
          (js "error",
            .string (js "Cannot read properties of null (reading 'ResponseCode')"))]
        (js "error") ≠ .null :=
  ⟨rfl, rfl, rfl, fun h => JSValue.noConfusion h⟩

/-- C5, amended: on a push request with truthy `amount` and a non-empty string
`phone`, when the token is obtained and the gateway answers the push with a
body `d` other than `null` and `undefined`, the response is 200 with
`data` = `d` if `d` carries `ResponseCode` `'0'`, and 500 with `error` = `d`
otherwise; for `d` `null` or `undefined` it is 500 with the generic message
and the exception message as `error`. -/
theorem C5_gateway_answer (env : Env) (store : Store) (body : Body) (p : JSString)
    (token d : JSValue)
    (hamount : (lookupProp body (js "amount")).truthy = true)
    (hphone : lookupProp body (js "phone") = .string p) (hp : p ≠ [])
    (htoken : (getAccessToken env).2 = .ok token)
    (hpost : env.axiosPost stkPushUrl
      (stkPushPayload env (lookupProp body (js "amount")) (formatPhoneNumber p)) token = .ok d) :
    (d ≠ .null → d ≠ .undefined → carriesSuccessCode d = true →
        (stkPushHandler env store body).outcome = .responded 200 (.object [
          (js "message", .string (js "✅ STK Push initiated successfully!")),
          (js "data", d)])) ∧
      (d ≠ .null → d ≠ .undefined → carriesSuccessCode d = false →
        (stkPushHandler env store body).outcome = .responded 500 (.object [
          (js "message", .string (js "STK Push initiation failed.")),
          (js "error", d)])) ∧
      (d = .null ∨ d = .undefined →
        (stkPushHandler env store body).outcome = .responded 500 (.object [
          (js "message", .string (js "Server error during M-Pesa STK Push.")),
          (js "error",
            .string (env.engineMessage (.propertyOfNullish d (js "ResponseCode"))))])) := by
  rw [stkPushHandler_outcome env store body p hamount hphone hp,
    stkPushTry_answered env _ _ token d htoken hpost]
  refine ⟨fun hn hu hc => ?_, fun hn hu hc => ?_, fun hd => ?_⟩
  · cases d with
    | null => exact absurd rfl hn
    | undefined => exact absurd rfl hu
    | object props =>
      have hz : isStringZero (lookupProp props (js "ResponseCode")) = true := hc
      simp only [getProp, hz, if_true]
    | bool b => exact Bool.noConfusion hc
    | number n => exact Bool.noConfusion hc
    | string s => exact Bool.noConfusion hc
    | array items => exact Bool.noConfusion hc
  · cases d with
    | null => exact absurd rfl hn
    | undefined => exact absurd rfl hu
    | object props =>
      have hz : isStringZero (lookupProp props (js "ResponseCode")) = false := hc
      simp only [getProp, hz, Bool.false_eq_true, if_false]
    | bool b => rfl
    | number n => rfl
    | string s => rfl
    | array items => rfl
  · rcases hd with rfl | rfl <;> rfl

/-- C5 at the sample request: the gateway accepts the push and the response is
200 with the gateway body as `data`. -/
theorem C5_gateway_answer_witness :
    (stkPushHandler sampleEnv [] samplePushBody).outcome = .responded 200 (.object [
      (js "message", .string (js "✅ STK Push initiated successfully!")),
      (js "data", .object [
        (js "ResponseCode", .string (js "0")),
        (js "CustomerMessage", .string (js "Success. Request accepted for processing"))])]) :=
  (C5_gateway_answer sampleEnv [] samplePushBody (js "0712345678") (.string (js "token"))
    (.object [
      (js "ResponseCode", .string (js "0")),
      (js "CustomerMessage", .string (js "Success. Request accepted for processing"))])
    rfl rfl (by decide) rfl rfl).1
    (fun h => JSValue.noConfusion h) (fun h => JSValue.noConfusion h) rfl

/-- C6: a contact request whose body lacks at least one of `name`, `email`,
`subject`, `message` is answered with status 400 and the message
`All fields are required.`; no document is built or saved, the store is as it
was. -/
theorem C6_contact_missing_field (env : Env) (store : Store) (body : Body)
    (h : hasProp body (js "name") = false ∨ hasProp body (js "email") = false ∨
      hasProp body (js "subject") = false ∨ hasProp body (js "message") = false) :
    contactHandler env store body =
      { outcome := .responded 400 (.object [
          (js "message", .string (js "All fields are required."))]),
        trace := [], store := store } := by
  have hg : (!(lookupProp body (js "name")).truthy || !(lookupProp body (js "email")).truthy ||
      !(lookupProp body (js "subject")).truthy ||
      !(lookupProp body (js "message")).truthy) = true := by
    rcases h with h | h | h | h <;> rw [lookupProp_of_not_hasProp body _ h] <;>
      simp [JSValue.truthy]
  unfold contactHandler
  simp only [hg, if_true]

/-- C6 at a form without `message`. -/
theorem C6_contact_missing_field_witness :
    contactHandler sampleEnv []
        [(js "name", .string (js "Amina")), (js "email", .string (js "amina@example.com")),
          (js "subject", .string (js "Hello"))] =
      { outcome := .responded 400 (.object [
          (js "message", .string (js "All fields are required."))]),
        trace := [], store := [] } :=
  C6_contact_missing_field sampleEnv []
    [(js "name", .string (js "Amina")), (js "email", .string (js "amina@example.com")),
      (js "subject", .string (js "Hello"))]
    (Or.inr (Or.inr (Or.inr (by decide))))

/-- C7, as stated, fails: a form in which all four fields are present, `name`
being the empty string, is answered with 400 and nothing is stored, although
the store would accept the write. -/
theorem C7_counterexample :
    hasProp emptyNameContactBody (js "name") = true ∧
      hasProp emptyNameContactBody (js "email") = true ∧
      hasProp emptyNameContactBody (js "subject") = true ∧
      hasProp emptyNameContactBody (js "message") = true ∧
      (∀ doc, sampleEnv.saveError [] doc = none) ∧
      contactHandler sampleEnv [] emptyNameContactBody =
        { outcome := .responded 400 (.object [
            (js "message", .string (js "All fields are required."))]),
          trace := [], store := [] } :=
  ⟨by decide, by decide, by decide, by decide, fun _ => rfl, rfl⟩

/-- C7, amended: a contact request in which `name`, `email`, `subject` and
`message` are all non-empty strings, with a store that leaves strings as they
are and accepts the write, is answered with status 201 and a `data` record
whose four fields are the request's values, with the generated identifier and
the creation time; that record, and nothing else, is added to the store. -/
theorem C7_contact_created (env : Env) (store : Store) (body : Body)
    (n e sj m : JSString)
    (hn : lookupProp body (js "name") = .string n) (hn0 : n ≠ [])
    (he : lookupProp body (js "email") = .string e) (he0 : e ≠ [])
    (hsj : lookupProp body (js "subject") = .string sj) (hsj0 : sj ≠ [])
    (hm : lookupProp body (js "message") = .string m) (hm0 : m ≠ [])
    (hcast : ∀ s, env.castString (.string s) = .string s)
    (hsave : env.saveError store
      { id := env.newId, name := .string n, email := .string e, subject := .string sj,
        message := .string m, createdAt := env.dateNow } = none) :
    contactHandler env store body =
      { outcome := .responded 201 (.object [
          (js "message", .string (js "✅ Contact message sent successfully!")),
          (js "data", .object [
            (js "name", .string n),
            (js "email", .string e),
            (js "subject", .string sj),
            (js "message", .string m),
            (js "_id", env.newId),
            (js "createdAt", env.dateNow),
            (js "__v", .number (.finite 0 0))])]),
        trace := [],
        store := store ++ [
          { id := env.newId, name := .string n, email := .string e, subject := .string sj,
            message := .string m, createdAt := env.dateNow }] } := by
  have hg : (!(JSValue.string n).truthy || !(JSValue.string e).truthy ||
      !(JSValue.string sj).truthy || !(JSValue.string m).truthy) = false := by
    rw [truthy_string n hn0, truthy_string e he0, truthy_string sj hsj0, truthy_string m hm0]
    rfl
  unfold contactHandler
  simp only [hn, he, hsj, hm, hg, Bool.false_eq_true, if_false, newContactMessage, hcast,
    hsave, ContactDoc.toJSON]

/-- C7 at the sample form. -/
theorem C7_contact_created_witness :
    contactHandler sampleEnv [] sampleContactBody =
      { outcome := .responded 201 (.object [
          (js "message", .string (js "✅ Contact message sent successfully!")),
          (js "data", .object [
            (js "name", .string (js "Amina")),
            (js "email", .string (js "amina@example.com")),
            (js "subject", .string (js "Hello")),
            (js "message", .string (js "Habari")),
            (js "_id", sampleEnv.newId),
            (js "createdAt", sampleEnv.dateNow),
            (js "__v", .number (.finite 0 0))])]),
        trace := [],
        store := [] ++ [
          { id := sampleEnv.newId, name := .string (js "Amina"),
            email := .string (js "amina@example.com"), subject := .string (js "Hello"),
            message := .string (js "Habari"), createdAt := sampleEnv.dateNow }] } :=
  C7_contact_created sampleEnv [] sampleContactBody (js "Amina") (js "amina@example.com")
    (js "Hello") (js "Habari") rfl (by decide) rfl (by decide) rfl (by decide) rfl (by decide)
    (fun _ => rfl) rfl

/-- C8, the code at the failing input: on the body
`{amount: 100, phone: 712345678}` both fields are present and truthy, the call
`phone.trim()` at line 78 throws before the `try` block is entered, and the
handler ends without a response: its promise rejects with the `TypeError`, and
nothing was sent to the gateway. -/
theorem C8_numeric_phone_escapes (env : Env) (store : Store) :
    hasProp numericPhoneBody (js "amount") = true ∧
      hasProp numericPhoneBody (js "phone") = true ∧
      stkPushHandler env store numericPhoneBody =
        { outcome := .rejected (env.typeError (.notAFunction (js "phone.trim"))),
          trace := [], store := store } :=
  ⟨by decide, by decide, rfl⟩

/-- C9, as stated, fails: the JSON body `123` posted to `/api/mpesa-callback`
is refused by `express.json()` with status 400; no callback handler runs and
no 200 is sent. -/
theorem C9_counterexample :
    handleRequest sampleEnv []
        { method := .POST, url := js "/api/mpesa-callback",
          json := .number (.finite 123 0), byteLength := 3 } = .parseFailed 400 ∧
      ∀ result : HandlerResult,
        handleRequest sampleEnv []
          { method := .POST, url := js "/api/mpesa-callback",
            json := .number (.finite 123 0), byteLength := 3 } ≠
          .handled .mpesaCallback result :=
  ⟨rfl, fun _ h => ServerResult.noConfusion h⟩

/-- C9, amended: a POST whose path matches `/api/mpesa-callback` (and not the
push route registered before it), with a JSON body that is an object or an
array of at most 100kb, is dispatched to the first-registered callback
handler, which answers 200 with the message `✅ Callback received` whatever
the body; a JSON body of at most 100kb that is neither an object nor an array
is refused with 400 and a body over 100kb with 413, both by `express.json()`
before any route runs; and no request at all is ever dispatched to the
second-registered callback handler. -/
theorem C9_callback_first_wins (env : Env) (store : Store) (url : JSString) (json : JSValue)
    (byteLength : Nat)
    (hcb : env.pathMatches (js "/api/mpesa-callback") url = true)
    (hpush : env.pathMatches (js "/api/stk-push") url = false) :
    (byteLength ≤ jsonLimit → json.isObjectOrArray = true →
        handleRequest env store
            { method := .POST, url := url, json := json, byteLength := byteLength } =
          .handled .mpesaCallback (mpesaCallbackHandler env store json) ∧
        (mpesaCallbackHandler env store json).outcome =
          .responded 200 (.object [(js "message", .string (js "✅ Callback received"))]) ∧
        (mpesaCallbackHandler env store json).store = store) ∧
      (byteLength ≤ jsonLimit → json.isObjectOrArray = false →
        handleRequest env store
            { method := .POST, url := url, json := json, byteLength := byteLength } =
          .parseFailed 400) ∧
      (jsonLimit < byteLength →
        handleRequest env store
            { method := .POST, url := url, json := json, byteLength := byteLength } =
          .parseFailed 413) ∧
      ∀ (req : Request) (result : HandlerResult),
        handleRequest env store req ≠ .handled .mpesaCallback2 result := by
  have hd : dispatch env .POST url = some .mpesaCallback := by
    simp [dispatch, routes, List.find?, methodMatches, hcb, hpush]
  refine ⟨fun hlen hobj => ⟨?_, rfl, rfl⟩, fun hlen hobj => ?_, fun hlen => ?_, ?_⟩
  · have hparse : expressJson json byteLength = .ok json := by
      unfold expressJson
      rw [if_neg (Nat.not_lt.mpr hlen)]
      cases json <;> first | rfl | exact Bool.noConfusion hobj
    unfold handleRequest
    simp only [hparse, hd, runHandler]
    rw [if_neg (by decide)]
  · have hparse : expressJson json byteLength = .error 400 := by
      unfold expressJson
      rw [if_neg (Nat.not_lt.mpr hlen)]
      cases json <;> first | rfl | exact Bool.noConfusion hobj
    unfold handleRequest
    simp only [hparse]
    rw [if_neg (by decide)]
  · have hparse : expressJson json byteLength = .error 413 := by
      unfold expressJson
      rw [if_pos hlen]
    unfold handleRequest
    simp only [hparse]
    rw [if_neg (by decide)]
  · intro req result h
    have hne : dispatch env req.method req.url ≠ some .mpesaCallback2 := by
      unfold dispatch routes
      simp only [List.find?]
      rcases pathMatches_cases (env.pathMatches (js "/api/stk-push") req.url) with h1 | h1 <;>
      rcases pathMatches_cases (env.pathMatches (js "/api/mpesa-callback") req.url)
        with h2 | h2 <;>
      rcases pathMatches_cases (env.pathMatches (js "/") req.url) with h3 | h3 <;>
      rcases pathMatches_cases (env.pathMatches (js "/api/contact") req.url) with h4 | h4 <;>
      cases req.method <;> simp [methodMatches, h1, h2, h3, h4]
    unfold handleRequest at h
    split at h
    · exact ServerResult.noConfusion h
    · split at h
      · exact ServerResult.noConfusion h
      · split at h
        · exact ServerResult.noConfusion h
        · rename_i hfound
          injection h with hh _
          exact hne (hh ▸ hfound)

/-- C9 at the path `/api/mpesa-callback` itself, with a callback payload of
103 bytes. -/
theorem C9_callback_first_wins_witness :
    handleRequest sampleEnv []
        { method := .POST, url := js "/api/mpesa-callback", json := sampleCallbackPayload,
          byteLength := 103 } =
      .handled .mpesaCallback (mpesaCallbackHandler sampleEnv [] sampleCallbackPayload) ∧
      (mpesaCallbackHandler sampleEnv [] sampleCallbackPayload).outcome =
        .responded 200 (.object [(js "message", .string (js "✅ Callback received"))]) ∧
      (mpesaCallbackHandler sampleEnv [] sampleCallbackPayload).store = [] :=
  (C9_callback_first_wins sampleEnv [] (js "/api/mpesa-callback") sampleCallbackPayload 103
    (by decide) (by decide)).1 (by decide) rfl

end KivRims
